import Mathlib

/-!
Verification of the custom-asmr spatial audio system.

Shallow embedding of:
- the coordinate mapper and spatial audio engine library
  (`src/lib/audio/spatial-audio-engine.ts`, shipped as `src/unnamed/part_004`):
  `padToPosition3D`, `updateSourcePosition`, `updateGain`,
  `connectAudioGraph`, `disconnectAudioGraph`;
- the engine state-machine hook `useSpatialAudio`
  (`src/unnamed/part_003`): `initialize` (embedded as `initEngine`, the
  original name collides with a reserved word of the toolchain),
  `connectStream`, `disconnectStream`, `setPosition`, `setGain`, `cleanup`;
- the pad coordinate conversion `pixelToNormalized`
  (`src/components/features/position-pad/PositionPad.tsx`);
- the tab audio capture hook `useTabAudioCapture`
  (`src/components/features/custom-asmr-player/hooks/use-tab-audio-capture.ts`,
  identical in the modelled respects to `src/hooks/use-tab-audio-capture.ts`):
  `startCapture` and the ended-event listener it registers;
- the orchestration `handleStart` of `CustomAsmrPlayer.tsx`.

Numbers are embedded as rationals: every constant in the source
(0.02, 5, 1, 0, -1, 1.7, -0.5, ...) is rational and the operations used
(negation, scaling, clamping via min/max, division by a rectangle size)
are exact on them.

Side effects on the Web Audio graph (AudioParam writes, node wiring,
closing the AudioContext) are embedded as an explicit list of effects
returned next to the new state, so that theorems can talk about what was
written to the live graph and how (instant write vs smoothed ramp).
-/

/-- 3D position, mirroring interface Position3D of the engine library. -/
structure Position3D where
  x : ℚ
  y : ℚ
  z : ℚ
deriving DecidableEq, Repr

/-- 2D normalized pad position, mirroring interface Position of PositionPad. -/
structure Position2D where
  x : ℚ
  y : ℚ
deriving DecidableEq, Repr

/-- `padToPosition3D(padX, padY, height = 0)` of the engine library:
lateral passes through, vertical is the independent height parameter,
depth is the negation of the pad Y axis. -/
def padToPosition3D (padX padY : ℚ) (height : ℚ) : Position3D :=
  { x := padX, y := height, z := -padY }

/-- `pixelToNormalized(pixelX, pixelY, width, height)` of PositionPad.tsx:
maps into center-origin coordinates, inverts Y (screen-down negative), and
clamps both axes into [-1, 1] with Math.max(-1, Math.min(1, v)). -/
def pixelToNormalized (pixelX pixelY width height : ℚ) : Position2D :=
  let x := (pixelX / width) * 2 - 1
  let y := -((pixelY / height) * 2 - 1)
  { x := max (-1) (min 1 x), y := max (-1) (min 1 y) }

/-- Opaque MediaStream handles, distinguished by identity only. -/
abbrev MediaStream := ℕ

/-- The AudioParams the engine writes to: the panner position components
and the gain AudioParam. -/
inductive AudioParamId
  | pannerPosX
  | pannerPosY
  | pannerPosZ
  | gainGain
deriving DecidableEq, Repr

/-- Observable side effects the engine performs on the Web Audio graph.
`setValue` is an instantaneous AudioParam write (param.value = v);
`setTargetAtTime` is a smoothed exponential ramp with a time constant;
`connectGraph` / `disconnectGraph` are the node (re)wiring calls;
`setListener` covers the one-time listener position/orientation writes;
`closeContext` is AudioContext.close(). -/
inductive AudioEffect
  | setValue (param : AudioParamId) (value : ℚ)
  | setTargetAtTime (param : AudioParamId) (target startTime timeConstant : ℚ)
  | connectGraph
  | disconnectGraph
  | setListener
  | closeContext
deriving DecidableEq, Repr

/-- `updateSourcePosition(panner, position, scale = 5)` of the engine
library: scales the normalized position by `scale` and writes each panner
position component with setTargetAtTime at the context current time and
time constant 0.02 = 1/50. -/
def updateSourcePosition (position : Position3D) (currentTime : ℚ)
    (scale : ℚ) : List AudioEffect :=
  [ AudioEffect.setTargetAtTime AudioParamId.pannerPosX (position.x * scale)
      currentTime (1 / 50),
    AudioEffect.setTargetAtTime AudioParamId.pannerPosY (position.y * scale)
      currentTime (1 / 50),
    AudioEffect.setTargetAtTime AudioParamId.pannerPosZ (position.z * scale)
      currentTime (1 / 50) ]

/-- `updateGain(gain, value)` of the engine library: clamps the value into
[0, 1] with Math.max(0, Math.min(1, value)) and writes the gain AudioParam
with setTargetAtTime at time constant 0.02 = 1/50. -/
def updateGain (value : ℚ) (currentTime : ℚ) : List AudioEffect :=
  [ AudioEffect.setTargetAtTime AudioParamId.gainGain (max 0 (min 1 value))
      currentTime (1 / 50) ]

/-- The live graph record, mirroring interface SpatialAudioNodes: the
AudioContext, panner node and gain node exist exactly as long as this
record does (they are non-optional fields created together at
initialization); the source node is present only while a stream is
connected and remembers which stream it was created from. -/
structure SpatialAudioNodes where
  source : Option MediaStream
deriving DecidableEq, Repr

/-- `connectAudioGraph(nodes)` of the engine library: a no-op when no
source node exists, otherwise wires source to panner to gain to
destination. -/
def connectAudioGraph (nodes : SpatialAudioNodes) : List AudioEffect :=
  match nodes.source with
  | none => []
  | some _ => [AudioEffect.connectGraph]

/-- `disconnectAudioGraph(nodes)` of the engine library: disconnects the
source (when present) and the panner and gain nodes. -/
def disconnectAudioGraph (_nodes : SpatialAudioNodes) : List AudioEffect :=
  [AudioEffect.disconnectGraph]

/-- The engine status enum SpatialAudioStatus of useSpatialAudio. -/
inductive SpatialAudioStatus
  | idle
  | initializing
  | ready
  | active
  | error
deriving DecidableEq, Repr

/-- The state owned by the useSpatialAudio hook: the status, position and
gain React states, the nodes ref and the stream ref. -/
structure EngineState where
  status : SpatialAudioStatus
  position : Position3D
  gain : ℚ
  nodes : Option SpatialAudioNodes
  stream : Option MediaStream
deriving DecidableEq, Repr

/-- The hook state right after mounting with initialGain `g`: status idle,
position (0, 0, 1), gain g, no nodes, no stream. -/
def initialState (g : ℚ) : EngineState :=
  { status := SpatialAudioStatus.idle
    position := { x := 0, y := 0, z := 1 }
    gain := g
    nodes := none
    stream := none }

/-- The AudioParam writes performed while building the node graph during
initialization: createPannerNode writes the initial panner position
(0, 0, 1) with direct value assignments, createGainNode writes the initial
gain value directly, and setListenerPosition writes the listener fields. -/
def initEffects (g : ℚ) : List AudioEffect :=
  [ AudioEffect.setValue AudioParamId.pannerPosX 0,
    AudioEffect.setValue AudioParamId.pannerPosY 0,
    AudioEffect.setValue AudioParamId.pannerPosZ 1,
    AudioEffect.setValue AudioParamId.gainGain g,
    AudioEffect.setListener ]

/-- The `initialize` operation of useSpatialAudio (named initEngine here):
if nodes already exist it returns true at once without touching anything;
otherwise it attempts to build the context and nodes — `ok` is whether the
try block succeeds (context creation, resume and node construction can
throw in the host). On success the status becomes ready and the nodes ref
is filled with a fresh graph (no source); on failure the status becomes
error, nodes stay absent and false is returned. Returns
(new state, result, effects). -/
def initEngine (ok : Bool) (g : ℚ) (s : EngineState) :
    EngineState × Bool × List AudioEffect :=
  if s.nodes.isSome then (s, true, [])
  else if ok then
    ({ s with status := SpatialAudioStatus.ready
              nodes := some { source := none } },
     true, initEffects g)
  else
    ({ s with status := SpatialAudioStatus.error }, false, [])

/-- `connectStream(stream)` of useSpatialAudio: a no-op when nodes do not
exist; otherwise any existing source is first disconnected, a new source
node is created from the stream, the graph is wired, and the status
becomes active. -/
def connectStream (stream : MediaStream) (s : EngineState) :
    EngineState × List AudioEffect :=
  match s.nodes with
  | none => (s, [])
  | some nodes =>
    let pre := if nodes.source.isSome then disconnectAudioGraph nodes else []
    let nodes2 : SpatialAudioNodes := { nodes with source := some stream }
    ({ s with status := SpatialAudioStatus.active
              nodes := some nodes2
              stream := some stream },
     pre ++ connectAudioGraph nodes2)

/-- `disconnectStream()` of useSpatialAudio: a no-op when nodes do not
exist or no source node is attached; otherwise disconnects the graph,
discards the source and stream refs, and returns the status to ready. The
context, panner and gain survive inside the nodes record. -/
def disconnectStream (s : EngineState) : EngineState × List AudioEffect :=
  match s.nodes with
  | none => (s, [])
  | some nodes =>
    match nodes.source with
    | none => (s, [])
    | some _ =>
      ({ s with status := SpatialAudioStatus.ready
                nodes := some { nodes with source := none }
                stream := none },
       disconnectAudioGraph nodes)

/-- `setPosition(x, y, height = 0)` of useSpatialAudio: a no-op when nodes
do not exist; otherwise converts the pad coordinates with padToPosition3D,
ramps the panner position there via updateSourcePosition (default scale 5)
and stores the new position in React state. -/
def setPosition (x y height currentTime : ℚ) (s : EngineState) :
    EngineState × List AudioEffect :=
  match s.nodes with
  | none => (s, [])
  | some _ =>
    let pos := padToPosition3D x y height
    ({ s with position := pos }, updateSourcePosition pos currentTime 5)

/-- `setGain(value)` of useSpatialAudio: a no-op when nodes do not exist;
otherwise applies the value to the gain node through updateGain (which
clamps into [0, 1]) and stores the raw argument in the gain React state
via setGainState(value). -/
def setGain (value currentTime : ℚ) (s : EngineState) :
    EngineState × List AudioEffect :=
  match s.nodes with
  | none => (s, [])
  | some _ =>
    ({ s with gain := value }, updateGain value currentTime)

/-- `cleanup()` of useSpatialAudio: a no-op when nodes do not exist;
otherwise disconnects the graph when a source is attached, closes the
AudioContext, clears the nodes and stream refs and returns the status to
idle. -/
def cleanup (s : EngineState) : EngineState × List AudioEffect :=
  match s.nodes with
  | none => (s, [])
  | some nodes =>
    let pre := if nodes.source.isSome then disconnectAudioGraph nodes else []
    ({ s with status := SpatialAudioStatus.idle
              nodes := none
              stream := none },
     pre ++ [AudioEffect.closeContext])

/-- The source node currently attached to the engine, if any. -/
def engineSource (s : EngineState) : Option MediaStream :=
  s.nodes.bind fun n => n.source

/-- The capture status enum CaptureStatus of useTabAudioCapture. -/
inductive CaptureStatus
  | idle
  | requesting
  | capturing
  | error
deriving DecidableEq, Repr

/-- The capture error classification enum CaptureError. -/
inductive CaptureError
  | notSupported
  | permissionDenied
  | noAudio
  | unknown
deriving DecidableEq, Repr

/-- The name of the DOMException thrown by getDisplayMedia on failure, as
the catch block of startCapture distinguishes it: NotAllowedError and
PermissionDeniedError, NotFoundError, any other Error, or a thrown value
that is not an Error at all. -/
inductive JsErrorName
  | notAllowedError
  | permissionDeniedError
  | notFoundError
  | otherError
  | nonError
deriving DecidableEq, Repr

/-- The catch-block classification of startCapture: NotAllowedError and
PermissionDeniedError map to permission-denied, NotFoundError to no-audio,
everything else (other Error names, non-Error throwables) to unknown. -/
def classifyCaptureError : JsErrorName → CaptureError
  | JsErrorName.notAllowedError => CaptureError.permissionDenied
  | JsErrorName.permissionDeniedError => CaptureError.permissionDenied
  | JsErrorName.notFoundError => CaptureError.noAudio
  | JsErrorName.otherError => CaptureError.unknown
  | JsErrorName.nonError => CaptureError.unknown

/-- The outcome of the awaited getDisplayMedia call: the user grants a
stream (which may or may not carry an audio track) or the call rejects
with some error. This is the environment input to startCapture. -/
inductive DisplayMediaOutcome
  | granted (stream : MediaStream) (hasAudioTrack : Bool)
  | denied (err : JsErrorName)
deriving DecidableEq, Repr

/-- The state owned by the useTabAudioCapture hook: status, error and
stream React states (the stream ref mirrors the stream state at every
point the claims observe) and the isSupported capability flag. -/
structure CaptureState where
  status : CaptureStatus
  error : Option CaptureError
  stream : Option MediaStream
  isSupported : Bool
deriving DecidableEq, Repr

/-- The capture hook state after mount on a supporting browser. -/
def initialCapture : CaptureState :=
  { status := CaptureStatus.idle
    error := none
    stream := none
    isSupported := true }

/-- `startCapture()` of useTabAudioCapture: fails fast with not-supported
when the capability flag is off; returns the existing stream unchanged
when one is already captured; otherwise moves to requesting, clears the
error and awaits getDisplayMedia, whose outcome is the `outcome`
parameter. A granted stream without an audio track is stopped and
reported as no-audio; a granted stream with audio is stored and the
status becomes capturing; a rejection is classified by its error name and
the status becomes error. Returns (new state, returned stream-or-null). -/
def startCapture (outcome : DisplayMediaOutcome) (s : CaptureState) :
    CaptureState × Option MediaStream :=
  if s.isSupported = false then
    ({ s with status := CaptureStatus.error
              error := some CaptureError.notSupported }, none)
  else
    match s.stream with
    | some st => (s, some st)
    | none =>
      match outcome with
      | DisplayMediaOutcome.granted st hasAudioTrack =>
        if hasAudioTrack then
          ({ s with status := CaptureStatus.capturing
                    error := none
                    stream := some st }, some st)
        else
          ({ s with status := CaptureStatus.error
                    error := some CaptureError.noAudio }, none)
      | DisplayMediaOutcome.denied e =>
        ({ s with status := CaptureStatus.error
                  error := some (classifyCaptureError e) }, none)

/-- The listener startCapture registers on the audio track for the ended
event (external revocation of the tab sharing): it sets the status to
idle and clears the stream state and ref, touching nothing else. -/
def onTrackEnded (s : CaptureState) : CaptureState :=
  { s with status := CaptureStatus.idle, stream := none }

/-- `stopCapture()` of useTabAudioCapture: stops all tracks, clears the
stream, returns the status to idle and clears the error. -/
def stopCapture (s : CaptureState) : CaptureState :=
  { s with status := CaptureStatus.idle, stream := none, error := none }

/-- The combined state the CustomAsmrPlayer orchestration coordinates. -/
structure SystemState where
  engine : EngineState
  capture : CaptureState
deriving DecidableEq, Repr

/-- `handleStart` of CustomAsmrPlayer: initializes the engine and aborts
on failure; invokes capture and aborts when it yields no stream; connects
the returned stream to the engine. `ok` is the environment input to the
engine initialization, `outcome` the one to getDisplayMedia. -/
def handleStart (ok : Bool) (g : ℚ) (outcome : DisplayMediaOutcome)
    (s : SystemState) : SystemState × List AudioEffect :=
  let r := initEngine ok g s.engine
  if r.2.1 = false then ({ s with engine := r.1 }, r.2.2)
  else
    let c := startCapture outcome s.capture
    match c.2 with
    | none => ({ engine := r.1, capture := c.1 }, r.2.2)
    | some st =>
      let e := connectStream st r.1
      ({ engine := e.1, capture := c.1 }, r.2.2 ++ e.2)

/-- `handleStop` of CustomAsmrPlayer: disconnects the stream from the
engine, stops the capture, and fully cleans the engine up, in that
order. -/
def handleStop (s : SystemState) : SystemState × List AudioEffect :=
  let d := disconnectStream s.engine
  let c := stopCapture s.capture
  let e := cleanup d.1
  ({ engine := e.1, capture := c }, d.2 ++ e.2)

/-- The ended event of the captured audio track delivered to the whole
system: the only registered listener is the one startCapture installed on
the capture hook, so the engine state is untouched. -/
def systemTrackEnded (s : SystemState) : SystemState :=
  { s with capture := onTrackEnded s.capture }

/-- The distinct status texts getStatusText of AudioControls.tsx can
render, one constructor per string returned by the source. -/
inductive StatusText
  | errorText
  | requestingText
  | initializingText
  | activeText
  | readyText
  | idleText
deriving DecidableEq, Repr

/-- `getStatusText(captureStatus, spatialStatus)` of AudioControls.tsx:
capture error first, then capture requesting, then spatial initializing,
active and ready, falling back to the waiting (idle) text. -/
def getStatusText (c : CaptureStatus) (sp : SpatialAudioStatus) :
    StatusText :=
  if c = CaptureStatus.error then StatusText.errorText
  else if c = CaptureStatus.requesting then StatusText.requestingText
  else if sp = SpatialAudioStatus.initializing then StatusText.initializingText
  else if sp = SpatialAudioStatus.active then StatusText.activeText
  else if sp = SpatialAudioStatus.ready then StatusText.readyText
  else StatusText.idleText

/-- The user-visible control surface computed by AudioControls.tsx and
the pad disabling of CustomAsmrPlayer.tsx: the status text, whether the
start button is enabled (canStart = isSupported and not active and not
loading), whether the stop button is enabled (canStop = isActive), and
whether the position pad is disabled (spatialStatus not active). -/
structure Display where
  statusText : StatusText
  canStart : Bool
  canStop : Bool
  padDisabled : Bool
deriving DecidableEq, Repr

/-- Renders the system state to the display surface exactly as
AudioControls.tsx and CustomAsmrPlayer.tsx derive it from captureStatus
and spatialStatus. -/
def render (s : SystemState) : Display :=
  let isActive : Bool := decide (s.engine.status = SpatialAudioStatus.active)
  let isLoading : Bool :=
    decide (s.capture.status = CaptureStatus.requesting)
      || decide (s.engine.status = SpatialAudioStatus.initializing)
  { statusText := getStatusText s.capture.status s.engine.status
    canStart := s.capture.isSupported && !isActive && !isLoading
    canStop := isActive
    padDisabled := !isActive }

/-- True of an AudioParam write exactly when it is a smoothed
setTargetAtTime ramp with the fixed 20 ms (= 1/50 s) time constant; false
of instantaneous value writes and of every non-write effect. -/
def smoothedRamp : AudioEffect → Bool
  | AudioEffect.setTargetAtTime _ _ _ tc => decide (tc = 1 / 50)
  | _ => false

/-- Bounds of the Math.max(-1, Math.min(1, t)) clamping used by
pixelToNormalized. -/
theorem clamp_unit_bounds (t : ℚ) :
    -1 ≤ max (-1) (min 1 t) ∧ max (-1) (min 1 t) ≤ 1 :=
  ⟨le_max_left _ _, max_le (by norm_num) (min_le_left _ _)⟩

/-- Claim C2: for all rational x, y and h, padToPosition3D (x, y, h)
returns the position with x component x, y component h, and z component
exactly the negation of y. -/
theorem padToPosition3D_components (x y h : ℚ) :
    (padToPosition3D x y h).x = x ∧
    (padToPosition3D x y h).y = h ∧
    (padToPosition3D x y h).z = -y :=
  ⟨rfl, rfl, rfl⟩

/-- Claim C5: for every pixel input, including points outside the
rectangle, pixelToNormalized returns coordinates clamped into [-1, 1] on
both axes; it never rejects. On a rectangle of positive size the mapping
is center-origin (the rectangle center maps to (0, 0)) with the Y axis
inverted: the top edge maps to y = 1 and the bottom edge to y = -1. -/
theorem pixelToNormalized_clamped (px py w h : ℚ) :
    (-1 ≤ (pixelToNormalized px py w h).x ∧
     (pixelToNormalized px py w h).x ≤ 1 ∧
     -1 ≤ (pixelToNormalized px py w h).y ∧
     (pixelToNormalized px py w h).y ≤ 1) ∧
    (0 < w → 0 < h →
      pixelToNormalized (w / 2) (h / 2) w h = { x := 0, y := 0 } ∧
      (pixelToNormalized px 0 w h).y = 1 ∧
      (pixelToNormalized px h w h).y = -1) := by
  constructor
  · exact ⟨(clamp_unit_bounds _).1, (clamp_unit_bounds _).2,
           (clamp_unit_bounds _).1, (clamp_unit_bounds _).2⟩
  · intro hw hh
    have hw0 : w ≠ 0 := ne_of_gt hw
    have hh0 : h ≠ 0 := ne_of_gt hh
    refine ⟨?_, ?_, ?_⟩
    · have ex : (w / 2) / w * 2 - 1 = 0 := by field_simp; ring
      have ey : -((h / 2) / h * 2 - 1) = 0 := by field_simp; ring
      simp only [pixelToNormalized, ex, ey]
      norm_num
    · have ey : -((0 : ℚ) / h * 2 - 1) = 1 := by norm_num
      simp only [pixelToNormalized, ey]
      norm_num
    · have ey : -(h / h * 2 - 1) = -1 := by
        rw [div_self hh0]; norm_num
      simp only [pixelToNormalized, ey]
      norm_num

/-- Witness for claim C5 at the concrete out-of-rectangle input
(7, -3) on a 2 by 2 rectangle. -/
theorem pixelToNormalized_clamped_witness :
    (-1 ≤ (pixelToNormalized 7 (-3) 2 2).x ∧
     (pixelToNormalized 7 (-3) 2 2).x ≤ 1 ∧
     -1 ≤ (pixelToNormalized 7 (-3) 2 2).y ∧
     (pixelToNormalized 7 (-3) 2 2).y ≤ 1) ∧
    pixelToNormalized (2 / 2) (2 / 2) 2 2 = { x := 0, y := 0 } := by
  have h := pixelToNormalized_clamped 7 (-3) 2 2
  exact ⟨h.1, (h.2 (by norm_num) (by norm_num)).1⟩

/-- Claim C7: every position update and every gain update is applied with
setTargetAtTime at the fixed 1/50 s (20 ms) time constant — both at the
library level (updateSourcePosition, updateGain) and through the hook
operations (setPosition, setGain) in every engine state; no instantaneous
value write is ever emitted by them. -/
theorem updates_use_smoothed_ramp (x y hgt v t : ℚ) (s : EngineState) :
    (updateSourcePosition (padToPosition3D x y hgt) t 5).all smoothedRamp
      = true ∧
    (updateGain v t).all smoothedRamp = true ∧
    (setPosition x y hgt t s).2.all smoothedRamp = true ∧
    (setGain v t s).2.all smoothedRamp = true := by
  refine ⟨?_, ?_, ?_, ?_⟩
  · simp [updateSourcePosition, smoothedRamp]
  · simp [updateGain, smoothedRamp]
  · rcases hs : s.nodes with _ | n
    · simp [setPosition, hs]
    · simp [setPosition, hs, updateSourcePosition, smoothedRamp]
  · rcases hs : s.nodes with _ | n
    · simp [setGain, hs]
    · simp [setGain, hs, updateGain, smoothedRamp]

/-- Claim C1: engine lifecycle scenario A. From the idle initial state, a
successful initialization puts the engine in ready; connectStream moves
the status to active; disconnectStream moves the status back to ready with
the nodes record (context, panner, gain) still alive and no
AudioContext.close() emitted; a final cleanup moves the status to idle,
drops the nodes and closes the context. -/
theorem engine_scenarioA (stream : MediaStream) :
    (initEngine true 1 (initialState 1)).1.status = SpatialAudioStatus.ready ∧
    (let s1 := (initEngine true 1 (initialState 1)).1
     let s2 := (connectStream stream s1).1
     s2.status = SpatialAudioStatus.active ∧
     (let r3 := disconnectStream s2
      r3.1.status = SpatialAudioStatus.ready ∧
      r3.1.nodes.isSome = true ∧
      AudioEffect.closeContext ∉ r3.2 ∧
      (let r4 := cleanup r3.1
       r4.1.status = SpatialAudioStatus.idle ∧
       r4.1.nodes = none ∧
       AudioEffect.closeContext ∈ r4.2))) := by
  simp [initEngine, initialState, connectStream, disconnectStream, cleanup,
        connectAudioGraph, disconnectAudioGraph]

/-- Claim C3: engine no-op safety. connectStream on an engine whose nodes
do not exist yet (initialization has not succeeded) changes nothing and
emits nothing; disconnectStream on an engine with no attached source is a
no-op; cleanup run a second time in a row (the state is already idle with
no nodes) is a no-op. All operations are total, so none can throw. -/
theorem engine_noop_safety (stream : MediaStream) (s1 s2 : EngineState)
    (h1 : s1.nodes = none) (h2 : engineSource s2 = none) :
    connectStream stream s1 = (s1, []) ∧
    disconnectStream s2 = (s2, []) ∧
    ∀ s3 : EngineState, cleanup (cleanup s3).1 = ((cleanup s3).1, []) := by
  refine ⟨?_, ?_, ?_⟩
  · simp [connectStream, h1]
  · rcases hn : s2.nodes with _ | n
    · simp [disconnectStream, hn]
    · have hsrc : n.source = none := by
        simpa [engineSource, hn] using h2
      simp [disconnectStream, hn, hsrc]
  · intro s3
    rcases hn : s3.nodes with _ | n
    · simp [cleanup, hn]
    · simp [cleanup, hn]

/-- Witness for claim C3 at the freshly mounted engine state. -/
theorem engine_noop_safety_witness :
    connectStream 0 (initialState 1) = (initialState 1, []) ∧
    disconnectStream (initialState 1) = (initialState 1, []) ∧
    cleanup (cleanup (initialState 1)).1 = ((cleanup (initialState 1)).1, []) := by
  have h := engine_noop_safety 0 (initialState 1) (initialState 1) rfl rfl
  exact ⟨h.1, h.2.1, h.2.2 (initialState 1)⟩

/-- Claim C6: initialization is idempotent. When the nodes already exist,
the operation returns success at once, leaves the whole engine state
unchanged and performs no graph effect, whatever the environment outcome
and initial gain of the second call would have been. -/
theorem initEngine_idempotent (ok : Bool) (g : ℚ) (s : EngineState)
    (h : s.nodes.isSome = true) :
    initEngine ok g s = (s, true, []) := by
  simp [initEngine, h]

/-- Witness for claim C6: re-running initialization on an engine that was
just successfully initialized, even with a failing environment. -/
theorem initEngine_idempotent_witness :
    initEngine false 2 (initEngine true 1 (initialState 1)).1 =
      ((initEngine true 1 (initialState 1)).1, true, []) :=
  initEngine_idempotent false 2 (initEngine true 1 (initialState 1)).1 rfl

/-- A successfully initialized engine state used as a concrete base for
the gain claims. -/
def readyState : EngineState := (initEngine true 1 (initialState 1)).1

/-- Counterexample to claim C4 as stated: after setGain(1.7) on an
initialized engine, the gain value the hook stores (setGainState(value)
stores the raw argument) is 17/10, which does not lie in [0, 1]. -/
theorem setGain_stores_raw_counterexample :
    (setGain (17 / 10) 0 readyState).1.gain = 17 / 10 ∧
    ¬ (setGain (17 / 10) 0 readyState).1.gain ≤ 1 := by
  constructor
  · rfl
  · norm_num [setGain, readyState, initEngine, initialState]

/-- Claim C4 (amended): for every input value, setGain applies to the
gain node a target clamped into [0, 1] via a smoothed ramp — in
particular 17/10 is applied as 1 and -1/2 is applied as 0 — while the
gain value stored in the hook state records the raw input unclamped. -/
theorem setGain_applies_clamped (v t : ℚ) (s : EngineState)
    (h : s.nodes.isSome = true) :
    (∃ c, (setGain v t s).2 =
        [AudioEffect.setTargetAtTime AudioParamId.gainGain c t (1 / 50)] ∧
        0 ≤ c ∧ c ≤ 1) ∧
    (setGain (17 / 10) t s).2 =
      [AudioEffect.setTargetAtTime AudioParamId.gainGain 1 t (1 / 50)] ∧
    (setGain (-(1 / 2)) t s).2 =
      [AudioEffect.setTargetAtTime AudioParamId.gainGain 0 t (1 / 50)] ∧
    (setGain v t s).1.gain = v := by
  rcases hn : s.nodes with _ | n
  · rw [hn] at h; simp at h
  · refine ⟨⟨max 0 (min 1 v), ?_, ?_, ?_⟩, ?_, ?_, ?_⟩
    · simp [setGain, hn, updateGain]
    · exact le_max_left _ _
    · exact max_le (by norm_num) (min_le_left _ _)
    · have hc : max 0 (min 1 (17 / 10 : ℚ)) = 1 := by
        rw [min_eq_left (by norm_num), max_eq_right (by norm_num)]
      simp [setGain, hn, updateGain, hc]
    · have hc : max 0 (min 1 (-(1 / 2) : ℚ)) = 0 := by
        rw [min_eq_right (by norm_num), max_eq_left (by norm_num)]
      simp [setGain, hn, updateGain, hc]
    · simp [setGain, hn]

/-- Witness for the amended claim C4 at input 17/10 on the initialized
engine: the applied target is clamped into [0, 1] while the stored gain
state is the raw 17/10. -/
theorem setGain_applies_clamped_witness :
    (∃ c, (setGain (17 / 10) 0 readyState).2 =
        [AudioEffect.setTargetAtTime AudioParamId.gainGain c 0 (1 / 50)] ∧
        0 ≤ c ∧ c ≤ 1) ∧
    (setGain (17 / 10) 0 readyState).1.gain = 17 / 10 := by
  have h := setGain_applies_clamped (17 / 10) 0 readyState rfl
  exact ⟨h.1, h.2.2.2⟩

/-- Claim C8: orchestration scenario B. After a first start in which the
engine initializes successfully but the capture permission is rejected,
the start sequence aborts before connectStream (no graph wiring effect is
emitted), the engine stays ready with its nodes alive and the capture
error is classified as permission-denied. A second start attempt skips
re-initialization — the initialization step returns success without
touching the engine state or emitting effects, whatever the environment
outcome `ok2` of that step would have been — and retries capture
directly, reaching the active engine status on a granted stream. -/
theorem orchestration_scenarioB (st : MediaStream) (ok2 : Bool) :
    (let s0 : SystemState := { engine := initialState 1
                               capture := initialCapture }
     let r1 := handleStart true 1
       (DisplayMediaOutcome.denied JsErrorName.notAllowedError) s0
     r1.1.engine.status = SpatialAudioStatus.ready ∧
     r1.1.engine.nodes.isSome = true ∧
     r1.1.capture.error = some CaptureError.permissionDenied ∧
     AudioEffect.connectGraph ∉ r1.2 ∧
     initEngine ok2 1 r1.1.engine = (r1.1.engine, true, []) ∧
     (let r2 := handleStart ok2 1 (DisplayMediaOutcome.granted st true) r1.1
      r2.1.engine.status = SpatialAudioStatus.active ∧
      r2.1.capture.status = CaptureStatus.capturing)) := by
  simp [handleStart, initEngine, initialState, initialCapture, startCapture,
        classifyCaptureError, connectStream, connectAudioGraph, initEffects]

/-- Claim C9, evaluated at the failing input: after a successful start
(engine active, capture capturing of stream 5), the ended event of the
captured track — external revocation, the only listener for which is the
one startCapture installed on the capture hook — resets the capture side
to idle (not error) and clears the stream, but the engine status remains
active and nothing closes the graph. The rendered display therefore still
shows the active status text with the start button disabled, the stop
button enabled and the pad enabled: not the idle-equivalent display the
system started in. Only a subsequent stop press (handleStop) brings the
display back to that idle-equivalent state, contradicting the claim that
no stop press is required. -/
theorem trackEnded_display_stays_active :
    (let s0 : SystemState := { engine := initialState 1
                               capture := initialCapture }
     let s1 := (handleStart true 1 (DisplayMediaOutcome.granted 5 true) s0).1
     let s2 := systemTrackEnded s1
     s1.engine.status = SpatialAudioStatus.active ∧
     s1.capture.status = CaptureStatus.capturing ∧
     s2.capture.status = CaptureStatus.idle ∧
     s2.capture.error = none ∧
     s2.capture.stream = none ∧
     s2.engine.status = SpatialAudioStatus.active ∧
     render s0 = { statusText := StatusText.idleText
                   canStart := true
                   canStop := false
                   padDisabled := true } ∧
     render s2 = { statusText := StatusText.activeText
                   canStart := false
                   canStop := true
                   padDisabled := false } ∧
     render s2 ≠ render s0 ∧
     render (handleStop s2).1 = render s0) := by
  simp [handleStart, initEngine, initialState, initialCapture, startCapture,
        connectStream, connectAudioGraph, initEffects, systemTrackEnded,
        onTrackEnded, handleStop, disconnectStream, disconnectAudioGraph,
        stopCapture, cleanup, render, getStatusText]

/-- Claim C10: when a captured stream is already live, startCapture
returns that same stream with the state fully unchanged (status and error
included), and the result does not depend on the getDisplayMedia outcome
at all — no new permission request is consulted. -/
theorem startCapture_existing_stream (outcome : DisplayMediaOutcome)
    (st : MediaStream) (s : CaptureState)
    (h1 : s.isSupported = true) (h2 : s.stream = some st) :
    startCapture outcome s = (s, some st) := by
  simp [startCapture, h1, h2]

/-- Witness for claim C10: after a successful capture of stream 5, a
second startCapture — here even facing a denied outcome, which shows the
prompt is not consulted — returns stream 5 and the unchanged state. -/
theorem startCapture_existing_stream_witness :
    startCapture (DisplayMediaOutcome.denied JsErrorName.notAllowedError)
      (startCapture (DisplayMediaOutcome.granted 5 true) initialCapture).1 =
    ((startCapture (DisplayMediaOutcome.granted 5 true) initialCapture).1,
      some 5) :=
  startCapture_existing_stream
    (DisplayMediaOutcome.denied JsErrorName.notAllowedError) 5
    (startCapture (DisplayMediaOutcome.granted 5 true) initialCapture).1
    rfl rfl
